import Mathlib

/-!
Verification of the hotel-management task scheduler
(`src/hotel_management_system.py`) against its natural-language
specification.

The Python program is shallowly embedded below.  The room classes
(`EconomyRoom`, `MidRangeRoom`, `VIPRoom`) become a `RoomClass` enum with
the class methods as functions on it; `Task` and the scheduler state are
records; the ambient clock (`datetime.now()`) and the random staff choice
(`random.choice`) are passed in as explicit parameters; Python exceptions
(`raise ValueError`) become `Option`-valued results; Python's stable
`sorted` with a tuple key becomes `List.mergeSort` with the corresponding
boolean lexicographic comparison; service charges (Python floats whose
values here are all exactly representable) become rationals.
-/

namespace HotelSys

/-- The three room classes of the program (`EconomyRoom`, `MidRangeRoom`,
`VIPRoom`). -/
inductive RoomClass where
  | economy
  | midRange
  | vip
deriving DecidableEq, Repr

/-- `get_room_class` of each room subclass. -/
def get_room_class : RoomClass → String
  | .economy => "Economy"
  | .midRange => "Mid-Range"
  | .vip => "VIP"

/-- `get_service_multiplier` of each room subclass. -/
def get_service_multiplier : RoomClass → ℚ
  | .economy => 1
  | .midRange => 3 / 2
  | .vip => 5 / 2

/-- `get_priority_level` of each room subclass (1 = VIP highest). -/
def get_priority_level : RoomClass → Nat
  | .economy => 3
  | .midRange => 2
  | .vip => 1

/-- `get_base_service_charge` of each room subclass. -/
def get_base_service_charge : RoomClass → ℚ
  | .economy => 10
  | .midRange => 15
  | .vip => 25

/-- `HotelRoom.calculate_service_charge`: `base_charge * self.get_service_multiplier()`. -/
def calculate_service_charge (c : RoomClass) (base_charge : ℚ) : ℚ :=
  base_charge * get_service_multiplier c

/-- The `Task` dataclass.  `timestamp` (a `datetime` in the source) is a
natural number; `service_charge` is a rational. -/
structure Task where
  id : Nat
  room_number : String
  room_class : String
  task_type : String
  priority : Nat
  estimated_time : Int
  description : String
  timestamp : Nat
  status : String := "Pending"
  assigned_staff : String := ""
  actual_time : Int := 0
  service_charge : ℚ := 0
deriving DecidableEq, Repr

/-- A `HotelRoom` object: its identifier, floor, class, and the mutable
`tasks_history` list (the amenity list is a function of the class and is
not used by any scheduler operation). -/
structure Room where
  room_number : String
  floor : Nat
  room_class : RoomClass
  tasks_history : List Task := []
deriving DecidableEq, Repr

/-- The room-number format `f"{floor}{room_num:02d}"`. -/
def mkRoomNum (floor room_num : Nat) : String :=
  toString floor ++ (if room_num < 10 then "0" ++ toString room_num else toString room_num)

/-- One floor's worth of entries of the `rooms` dict: rooms 1..30 on the
given floor, all of the given class. -/
def floorRooms (floor : Nat) (c : RoomClass) : List (String × Room) :=
  (List.range' 1 30).map fun n =>
    (mkRoomNum floor n, { room_number := mkRoomNum floor n, floor := floor, room_class := c })

/-- `HotelScheduler.initialize_rooms`: Economy on floors 1–3, Mid-Range on
floors 4–6, VIP on floors 7–10, thirty rooms per floor.  The Python dict
is modelled as an association list in insertion order (all keys are
distinct). -/
def initRooms : List (String × Room) :=
  ((List.range' 1 3).flatMap fun f => floorRooms f .economy) ++
  ((List.range' 4 3).flatMap fun f => floorRooms f .midRange) ++
  ((List.range' 7 4).flatMap fun f => floorRooms f .vip)

/-- Python's `room_number.replace("Room ", "")` on character lists: every
left-to-right, non-overlapping occurrence of the needle `Room ` (`'R'`,
`'o'`, `'o'`, `'m'`, `' '`) is removed.  The needle is the constant
`"Room "` — the only needle the program ever passes to `replace` — so it
is specialized into the patterns. -/
def removeRoomAll : List Char → List Char
  | 'R' :: 'o' :: 'o' :: 'm' :: ' ' :: rest => removeRoomAll rest
  | c :: rest => c :: removeRoomAll rest
  | [] => []

/-- The scheduler state (`HotelScheduler` fields touched by the modelled
operations, plus the `is_simulation_running` flag's effect which is passed
to the simulation step explicitly). -/
structure Scheduler where
  tasks : List Task
  completed_tasks : List Task
  rooms : List (String × Room)
  task_counter : Nat
  current_algorithm : String
  time_quantum : Nat
deriving DecidableEq, Repr

/-- `HotelScheduler.__init__` (scheduling-relevant fields). -/
def initState : Scheduler :=
  { tasks := []
    completed_tasks := []
    rooms := initRooms
    task_counter := 1
    current_algorithm := "Priority"
    time_quantum := 15 }

/-- `HotelScheduler.get_room`: `self.rooms.get(room_number.replace("Room ", ""))`. -/
def get_room (s : Scheduler) (room_number : String) : Option Room :=
  s.rooms.lookup (String.mk (removeRoomAll room_number.data))

/-- `HotelScheduler.add_task`.  Returns `none` where the source raises
`ValueError` (unknown room); on success returns the created task and the
updated scheduler (task appended to `tasks`, task appended to the room's
`tasks_history`, counter incremented).  `now` stands for `datetime.now()`. -/
def add_task (s : Scheduler) (room_number task_type : String) (estimated_time : Int)
    (description : String) (now : Nat) : Option (Task × Scheduler) :=
  match get_room s room_number with
  | none => none
  | some room =>
    let priority := get_priority_level room.room_class
    let service_charge := calculate_service_charge room.room_class
      (get_base_service_charge room.room_class)
    let task : Task :=
      { id := s.task_counter
        room_number := room_number
        room_class := get_room_class room.room_class
        task_type := task_type
        priority := priority
        estimated_time := estimated_time
        description := description
        timestamp := now
        status := "Pending"
        assigned_staff := ""
        actual_time := 0
        service_charge := service_charge }
    let key := String.mk (removeRoomAll room_number.data)
    some (task,
      { s with
        tasks := s.tasks ++ [task]
        rooms := s.rooms.map fun p =>
          if p.1 == key then (p.1, { p.2 with tasks_history := p.2.tasks_history ++ [task] }) else p
        task_counter := s.task_counter + 1 })

/-- The scheduler state as seen by the caller after an `add_task` call:
`HotelManagementGUI.add_task` catches the `ValueError`, so on failure the
scheduler object is exactly as it was before the call; on success it is
the updated state. -/
def add_task_run (s : Scheduler) (room_number task_type : String) (estimated_time : Int)
    (description : String) (now : Nat) : Scheduler :=
  match add_task s room_number task_type estimated_time description now with
  | none => s
  | some (_, s') => s'

/-- The pending filter `[t for t in self.tasks if t.status == "Pending"]`. -/
def pendingTasks (s : Scheduler) : List Task :=
  s.tasks.filter fun t => t.status == "Pending"

/-- The key comparison of `sorted(..., key=lambda x: x.timestamp)`. -/
def fcfsLe (a b : Task) : Bool :=
  decide (a.timestamp ≤ b.timestamp)

/-- The key comparison of `sorted(..., key=lambda x: (x.priority, x.timestamp))`
(lexicographic tuple order). -/
def priorityLe (a b : Task) : Bool :=
  decide (a.priority < b.priority ∨ (a.priority = b.priority ∧ a.timestamp ≤ b.timestamp))

/-- The key comparison of
`sorted(..., key=lambda x: (x.estimated_time, x.priority, x.timestamp))`. -/
def sjfLe (a b : Task) : Bool :=
  decide (a.estimated_time < b.estimated_time ∨
    (a.estimated_time = b.estimated_time ∧
      (a.priority < b.priority ∨ (a.priority = b.priority ∧ a.timestamp ≤ b.timestamp))))

/-- `HotelScheduler.fcfs_schedule`. -/
def fcfs_schedule (s : Scheduler) : List Task :=
  (pendingTasks s).mergeSort fcfsLe

/-- `HotelScheduler.priority_schedule`. -/
def priority_schedule (s : Scheduler) : List Task :=
  (pendingTasks s).mergeSort priorityLe

/-- `HotelScheduler.sjf_schedule`. -/
def sjf_schedule (s : Scheduler) : List Task :=
  (pendingTasks s).mergeSort sjfLe

/-- `HotelScheduler.round_robin_schedule` (same sort key as
`priority_schedule`; the `time_quantum` field is not consulted). -/
def round_robin_schedule (s : Scheduler) : List Task :=
  let pending_tasks := s.tasks.filter fun t => t.status == "Pending"
  pending_tasks.mergeSort priorityLe

/-- `HotelScheduler.get_scheduled_tasks`: dispatch on the algorithm name. -/
def get_scheduled_tasks (s : Scheduler) : List Task :=
  if s.current_algorithm == "FCFS" then fcfs_schedule s
  else if s.current_algorithm == "Priority" then priority_schedule s
  else if s.current_algorithm == "SJF" then sjf_schedule s
  else if s.current_algorithm == "Round Robin" then round_robin_schedule s
  else []

/-- `HotelManagementGUI.clear_all_tasks`: `scheduler.tasks.clear()` and
`scheduler.completed_tasks.clear()`; nothing else is touched. -/
def clear_all_tasks (s : Scheduler) : Scheduler :=
  { s with tasks := [], completed_tasks := [] }

/-- The outcome of one iteration of the `run_simulation` while-loop body:
the queue was empty and the loop waits (`idle`), the cancellation flag was
observed false during the progress increments and the function returned
(`cancelled`), or the head task ran to completion and the loop continues
(`completed`). -/
inductive SimOutcome where
  | idle (s : Scheduler)
  | cancelled (s : Scheduler)
  | completed (t : Task) (s : Scheduler)
deriving DecidableEq, Repr

/-- The in-place mutation `task.assigned_staff = staff`. -/
def assignStaff (t : Task) (staff : String) : Task :=
  { t with assigned_staff := staff }

/-- The in-place mutations `task.status = "Completed"` and
`task.actual_time = task.estimated_time`. -/
def completeTask (t : Task) : Task :=
  { t with status := "Completed", actual_time := t.estimated_time }

/-- One iteration of the body of `HotelManagementGUI.run_simulation`.
`flag i` is the value of `self.is_simulation_running` read at progress
increment `i` (Python checks it once per `for i in range(estimated_time)`
step and returns from the function — exits the loop — at the first
`false`); `staff` is the result of the `random.choice` staff pick.
Python mutates the head task object in place — staff assignment before
the progress loop, then, only if no check observed `false`,
status/actual-time — so the element inside `tasks` is rewritten
correspondingly; on completion the task is appended to `completed_tasks`
and the first `==`-equal element is removed from `tasks`
(`self.scheduler.tasks.remove(task)`). -/
def runSimStep (flag : Nat → Bool) (staff : String) (s : Scheduler) : SimOutcome :=
  match get_scheduled_tasks s with
  | [] => .idle s
  | t :: _ =>
    if (List.range t.estimated_time.toNat).all flag then
      .completed (completeTask (assignStaff t staff))
        { s with
          tasks := ((s.tasks.map fun x => if x = t then assignStaff t staff else x).map
              fun x => if x = assignStaff t staff then completeTask (assignStaff t staff)
                else x).erase (completeTask (assignStaff t staff))
          completed_tasks := s.completed_tasks ++ [completeTask (assignStaff t staff)] }
    else
      .cancelled { s with
        tasks := s.tasks.map fun x => if x = t then assignStaff t staff else x }

/-- Number of pending tasks. -/
def pendingCount (s : Scheduler) : Nat :=
  (pendingTasks s).length

/-- Number of completed tasks. -/
def completedCount (s : Scheduler) : Nat :=
  s.completed_tasks.length

/-- Pending plus completed. -/
def totalCount (s : Scheduler) : Nat :=
  pendingCount s + completedCount s

/-! ### Example rooms, tasks and scheduler states used by the witnesses -/

/-- The Economy room `"101"` as created by `initialize_rooms`. -/
def ecoRoom101 : Room :=
  { room_number := "101", floor := 1, room_class := .economy }

/-- A scheduler whose catalog holds the single room `"101"`. -/
def sOneRoom : Scheduler :=
  { tasks := []
    completed_tasks := []
    rooms := [("101", ecoRoom101)]
    task_counter := 1
    current_algorithm := "Priority"
    time_quantum := 15 }

/-- A VIP task (rank 1, 10 minutes, arrived first). -/
def taskA : Task :=
  { id := 1, room_number := "710", room_class := "VIP", task_type := "Butler Service"
    priority := 1, estimated_time := 10, description := "a", timestamp := 1
    service_charge := 125 / 2 }

/-- An Economy task (rank 3, 5 minutes, arrived second). -/
def taskB : Task :=
  { id := 2, room_number := "101", room_class := "Economy", task_type := "Housekeeping"
    priority := 3, estimated_time := 5, description := "b", timestamp := 2
    service_charge := 10 }

/-- A Mid-Range task (rank 2, 8 minutes, arrived third). -/
def taskC : Task :=
  { id := 3, room_number := "405", room_class := "Mid-Range", task_type := "Room Service"
    priority := 2, estimated_time := 8, description := "c", timestamp := 3
    service_charge := 45 / 2 }

/-- Three pending tasks across the three classes, `Priority` policy. -/
def sThree : Scheduler :=
  { tasks := [taskA, taskB, taskC]
    completed_tasks := []
    rooms := []
    task_counter := 4
    current_algorithm := "Priority"
    time_quantum := 15 }

/-- The same three tasks under the `SJF` policy. -/
def sThreeSJF : Scheduler :=
  { sThree with current_algorithm := "SJF" }

/-- A scheduler with one pending 5-minute task, used to exercise the
simulation step. -/
def sSim : Scheduler :=
  { tasks := [taskB]
    completed_tasks := []
    rooms := []
    task_counter := 3
    current_algorithm := "Priority"
    time_quantum := 15 }

/-- `taskB` after the simulation step finished it: staff `"w"` assigned,
status `"Completed"`, actual time equal to the 5-minute estimate. -/
def taskBDone : Task :=
  { taskB with assigned_staff := "w", status := "Completed", actual_time := 5 }

/-- `sSim` after the completion step: pending emptied, `taskBDone`
appended to the completed collection. -/
def sSimDone : Scheduler :=
  { sSim with tasks := [], completed_tasks := [taskBDone] }

/-- A cancellation-flag schedule that reads `true` at increments 0 and 1
and `false` from increment 2 on. -/
def flagOff2 (i : Nat) : Bool :=
  decide (i < 2)

/-- A scheduler with one pending and one completed task (ids 1 and 2,
counter 3), used to exercise `clear_all_tasks`. -/
def sClear : Scheduler :=
  { tasks := [taskA]
    completed_tasks := [{ taskB with status := "Completed", actual_time := 5 }]
    rooms := [("101", ecoRoom101)]
    task_counter := 3
    current_algorithm := "Priority"
    time_quantum := 15 }

/-- The task created when admitting room `"101"` right after clearing
`sClear` (ID 3 — the counter was not reset by the clear). -/
def taskClearDone : Task :=
  { id := 3, room_number := "101", room_class := "Economy", task_type := "x"
    priority := 3, estimated_time := 5, description := "d", timestamp := 9
    service_charge := calculate_service_charge .economy (get_base_service_charge .economy) }

/-- The scheduler state after clearing `sClear` and admitting room
`"101"`. -/
def sClearAfter : Scheduler :=
  { tasks := [taskClearDone]
    completed_tasks := []
    rooms := [("101", { ecoRoom101 with tasks_history := [taskClearDone] })]
    task_counter := 4
    current_algorithm := "Priority"
    time_quantum := 15 }

/-! ### Basic lemmas about the embedding -/

theorem removeRoomAll_data_append (t : List Char) :
    removeRoomAll ("Room ".data ++ t) = removeRoomAll t := rfl

theorem removeRoomAll_eq_self {s : List Char} (h : 'R' ∉ s) : removeRoomAll s = s := by
  induction s using removeRoomAll.induct with
  | case1 rest ih => simp at h
  | case2 c rest hne ih =>
    rw [removeRoomAll]
    · have h2 : 'R' ∉ rest := fun hm => h (List.mem_cons_of_mem _ hm)
      rw [ih h2]
    · exact hne
  | case3 => rfl

/-- `get_room` gives the same answer on `"Room " ++ r` as on `r`, for any
scheduler and any string: the first five characters are removed either way. -/
theorem get_room_room_append (s : Scheduler) (r : String) :
    get_room s ("Room " ++ r) = get_room s r := by
  unfold get_room
  rw [String.data_append, removeRoomAll_data_append]

theorem toString_lt11_noR : ∀ f, f < 11 → 'R' ∉ (toString f).data := by decide

theorem pad_lt31_noR :
    ∀ n, n < 31 → 'R' ∉ (if n < 10 then "0" ++ toString n else toString n).data := by decide

theorem mkRoomNum_noR {f n : Nat} (hf : f < 11) (hn : n < 31) :
    'R' ∉ (mkRoomNum f n).data := by
  unfold mkRoomNum
  rw [String.data_append, List.mem_append]
  rintro (h | h)
  · exact toString_lt11_noR f hf h
  · exact pad_lt31_noR n hn h

/-- Every key in the generated room catalog is a digit string; in
particular it does not contain the character `'R'`. -/
theorem initRooms_key_noR : ∀ p ∈ initRooms, 'R' ∉ p.1.data := by
  intro p hp
  have hkey : ∃ f n, f < 11 ∧ n < 31 ∧ p.1 = mkRoomNum f n := by
    unfold initRooms at hp
    rw [List.mem_append, List.mem_append] at hp
    rcases hp with (hp | hp) | hp <;>
      (rw [List.mem_flatMap] at hp
       obtain ⟨f, hf, hpf⟩ := hp
       rw [List.mem_range'] at hf
       obtain ⟨i, hi, rfl⟩ := hf
       unfold floorRooms at hpf
       rw [List.mem_map] at hpf
       obtain ⟨n, hn, rfl⟩ := hpf
       rw [List.mem_range'] at hn
       obtain ⟨j, hj, rfl⟩ := hn
       exact ⟨_, _, by omega, by omega, rfl⟩)
  obtain ⟨f, n, hf, hn, hkey⟩ := hkey
  rw [hkey]
  exact mkRoomNum_noR hf hn

/-- On a string that is itself a key of the generated catalog, the
`"Room "`-removal is the identity, so `get_room` is plain dict lookup. -/
theorem get_room_initState_key {r : String} (h : (initState.rooms.lookup r).isSome = true) :
    get_room initState r = initState.rooms.lookup r := by
  obtain ⟨p, hp, hpr⟩ := List.lookup_isSome_iff.mp h
  have hnoR : 'R' ∉ r.data := by
    rw [beq_iff_eq] at hpr
    rw [hpr]
    exact initRooms_key_noR p hp
  unfold get_room
  rw [removeRoomAll_eq_self hnoR]

theorem priorityLe_trans (a b c : Task) :
    priorityLe a b → priorityLe b c → priorityLe a c := by
  simp only [priorityLe, decide_eq_true_eq]
  omega

theorem priorityLe_total (a b : Task) : priorityLe a b || priorityLe b a := by
  simp only [priorityLe, Bool.or_eq_true, decide_eq_true_eq]
  omega

theorem sjfLe_trans (a b c : Task) : sjfLe a b → sjfLe b c → sjfLe a c := by
  simp only [sjfLe, decide_eq_true_eq]
  omega

theorem sjfLe_total (a b : Task) : sjfLe a b || sjfLe b a := by
  simp only [sjfLe, Bool.or_eq_true, decide_eq_true_eq]
  omega

theorem mem_pendingTasks {s : Scheduler} {t : Task} (h : t ∈ pendingTasks s) :
    t ∈ s.tasks ∧ t.status = "Pending" := by
  unfold pendingTasks at h
  rw [List.mem_filter, beq_iff_eq] at h
  exact h

/-- Whatever the current policy, every element of `get_scheduled_tasks` is
drawn from the pending filter. -/
theorem mem_get_scheduled_tasks {s : Scheduler} {t : Task}
    (h : t ∈ get_scheduled_tasks s) : t ∈ pendingTasks s := by
  unfold get_scheduled_tasks at h
  split at h
  · rw [fcfs_schedule, List.mem_mergeSort] at h
    exact h
  · split at h
    · rw [priority_schedule, List.mem_mergeSort] at h
      exact h
    · split at h
      · rw [sjf_schedule, List.mem_mergeSort] at h
        exact h
      · split at h
        · rw [round_robin_schedule] at h
          rw [List.mem_mergeSort] at h
          exact h
        · simp at h

theorem get_scheduled_tasks_priority {s : Scheduler} (h : s.current_algorithm = "Priority") :
    get_scheduled_tasks s = priority_schedule s := by
  simp [get_scheduled_tasks, h]

theorem get_scheduled_tasks_sjf {s : Scheduler} (h : s.current_algorithm = "SJF") :
    get_scheduled_tasks s = sjf_schedule s := by
  simp [get_scheduled_tasks, h]

theorem map_replace_of_ne {l : List Task} {a b : Task} (h : ∀ x ∈ l, x ≠ a) :
    (l.map fun x => if x = a then b else x) = l := by
  have : (l.map fun x => if x = a then b else x) = l.map id :=
    List.map_congr_left fun x hx => if_neg (h x hx)
  rw [this, List.map_id]

theorem map_replace_append {L₁ L₂ : List Task} {a b : Task}
    (h1 : ∀ x ∈ L₁, x ≠ a) (h2 : ∀ x ∈ L₂, x ≠ a) :
    ((L₁ ++ a :: L₂).map fun x => if x = a then b else x) = L₁ ++ b :: L₂ := by
  rw [List.map_append, List.map_cons, if_pos rfl, map_replace_of_ne h1, map_replace_of_ne h2]

theorem ids_nodup_split {L₁ L₂ : List Task} {a : Task}
    (h : ((L₁ ++ a :: L₂).map Task.id).Nodup) :
    (∀ x ∈ L₁, x.id ≠ a.id) ∧ (∀ x ∈ L₂, x.id ≠ a.id) := by
  rw [List.map_append, List.map_cons, List.nodup_append] at h
  obtain ⟨h1, h2, hdis⟩ := h
  refine ⟨fun x hx hxa => ?_, fun x hx hxa => ?_⟩
  · exact hdis (hxa ▸ List.mem_map_of_mem Task.id hx) (List.mem_cons_self ..)
  · exact (List.nodup_cons.mp h2).1 (hxa ▸ List.mem_map_of_mem Task.id hx)

/-! ### Claim theorems -/

/-- **C1.**  Under the `Priority` policy, `get_scheduled_tasks` returns the
pending tasks (a permutation of the pending filter) sorted ascending by
the pair (priority rank, creation timestamp): for every earlier element
`a` and later element `b` of the output, either `a`'s rank is strictly
smaller, or the ranks are equal and `a`'s timestamp is not larger.  In
particular a task of strictly smaller rank always appears before one of
larger rank, regardless of arrival order, and tasks of equal rank appear
in ascending timestamp order. -/
theorem priority_policy_sorted (s : Scheduler) (h : s.current_algorithm = "Priority") :
    (get_scheduled_tasks s).Perm (pendingTasks s) ∧
    (get_scheduled_tasks s).Pairwise
      (fun a b => a.priority < b.priority ∨ (a.priority = b.priority ∧ a.timestamp ≤ b.timestamp)) := by
  rw [get_scheduled_tasks_priority h, priority_schedule]
  refine ⟨List.mergeSort_perm _ _, ?_⟩
  have hp := List.sorted_mergeSort priorityLe_trans priorityLe_total (pendingTasks s)
  exact hp.imp fun hab => of_decide_eq_true hab

/-- Witness for C1: the three-task example state runs under `Priority`. -/
theorem priority_policy_sorted_witness :
    sThree.current_algorithm = "Priority" ∧
    ((get_scheduled_tasks sThree).Perm (pendingTasks sThree) ∧
     (get_scheduled_tasks sThree).Pairwise
       (fun a b => a.priority < b.priority ∨ (a.priority = b.priority ∧ a.timestamp ≤ b.timestamp))) :=
  ⟨rfl, priority_policy_sorted sThree rfl⟩

/-- **C3.**  Under the `SJF` (ShortestJobFirst) policy,
`get_scheduled_tasks` returns the pending tasks sorted ascending by the
compound key (estimated duration, priority rank, creation timestamp):
equal durations tie-break by rank, then by timestamp. -/
theorem sjf_policy_sorted (s : Scheduler) (h : s.current_algorithm = "SJF") :
    (get_scheduled_tasks s).Perm (pendingTasks s) ∧
    (get_scheduled_tasks s).Pairwise
      (fun a b => a.estimated_time < b.estimated_time ∨
        (a.estimated_time = b.estimated_time ∧
          (a.priority < b.priority ∨ (a.priority = b.priority ∧ a.timestamp ≤ b.timestamp)))) := by
  rw [get_scheduled_tasks_sjf h, sjf_schedule]
  refine ⟨List.mergeSort_perm _ _, ?_⟩
  have hp := List.sorted_mergeSort sjfLe_trans sjfLe_total (pendingTasks s)
  exact hp.imp fun hab => of_decide_eq_true hab

/-- Witness for C3: three tasks of three classes under `SJF`. -/
theorem sjf_policy_sorted_witness :
    sThreeSJF.current_algorithm = "SJF" ∧
    ((get_scheduled_tasks sThreeSJF).Perm (pendingTasks sThreeSJF) ∧
     (get_scheduled_tasks sThreeSJF).Pairwise
       (fun a b => a.estimated_time < b.estimated_time ∨
         (a.estimated_time = b.estimated_time ∧
           (a.priority < b.priority ∨ (a.priority = b.priority ∧ a.timestamp ≤ b.timestamp))))) :=
  ⟨rfl, sjf_policy_sorted sThreeSJF rfl⟩

/-- **C4.**  `round_robin_schedule` is functionally identical to
`priority_schedule` on every scheduler state, the time-quantum field has
no effect on its output, and under the `Round Robin` policy
`get_scheduled_tasks` produces exactly the `Priority` ordering for every
quantum value. -/
theorem round_robin_equals_priority (s : Scheduler) :
    round_robin_schedule s = priority_schedule s ∧
    (∀ q, round_robin_schedule { s with time_quantum := q } = round_robin_schedule s) ∧
    (∀ q, get_scheduled_tasks { s with current_algorithm := "Round Robin", time_quantum := q }
      = priority_schedule s) :=
  ⟨rfl, fun _ => rfl, fun _ => rfl⟩

/-- **C2.**  Every successful admission computes the returned task's
service charge as the group's base charge times the group's multiplier,
and its priority rank as the group's static rank; the group tables are
Economy 10.0 × 1.0 (rank 3), Mid-Range 15.0 × 1.5 (rank 2),
VIP 25.0 × 2.5 (rank 1), giving charges 10, 22.5 and 62.5. -/
theorem add_task_charge_and_rank (s : Scheduler) (r ty d : String) (et : Int) (now : Nat)
    (room : Room) (h : get_room s r = some room) :
    (add_task s r ty et d now).map (fun p => (p.1.service_charge, p.1.priority))
      = some (get_base_service_charge room.room_class * get_service_multiplier room.room_class,
              get_priority_level room.room_class) ∧
    get_base_service_charge .economy = 10 ∧ get_service_multiplier .economy = 1 ∧
    get_base_service_charge .midRange = 15 ∧ get_service_multiplier .midRange = 3 / 2 ∧
    get_base_service_charge .vip = 25 ∧ get_service_multiplier .vip = 5 / 2 ∧
    get_priority_level .vip = 1 ∧ get_priority_level .midRange = 2 ∧
    get_priority_level .economy = 3 ∧
    (room.room_class = .economy →
      (add_task s r ty et d now).map (fun p => (p.1.service_charge, p.1.priority))
        = some (10, 3)) ∧
    (room.room_class = .midRange →
      (add_task s r ty et d now).map (fun p => (p.1.service_charge, p.1.priority))
        = some (45 / 2, 2)) ∧
    (room.room_class = .vip →
      (add_task s r ty et d now).map (fun p => (p.1.service_charge, p.1.priority))
        = some (125 / 2, 1)) := by
  have hmain : (add_task s r ty et d now).map (fun p => (p.1.service_charge, p.1.priority))
      = some (get_base_service_charge room.room_class * get_service_multiplier room.room_class,
              get_priority_level room.room_class) := by
    unfold add_task
    rw [h]
    rfl
  refine ⟨hmain, rfl, rfl, rfl, rfl, rfl, rfl, rfl, rfl, rfl, ?_, ?_, ?_⟩ <;>
    (intro hc
     rw [hmain, hc]
     norm_num [get_base_service_charge, get_service_multiplier, get_priority_level])

/-- Witness for C2: admitting room `"101"` (Economy) in the one-room
catalog. -/
theorem add_task_charge_and_rank_witness :
    get_room sOneRoom "101" = some ecoRoom101 ∧
    ((add_task sOneRoom "101" "Housekeeping" 30 "d" 7).map
        (fun p => (p.1.service_charge, p.1.priority))
      = some (get_base_service_charge ecoRoom101.room_class *
                get_service_multiplier ecoRoom101.room_class,
              get_priority_level ecoRoom101.room_class) ∧
    get_base_service_charge .economy = 10 ∧ get_service_multiplier .economy = 1 ∧
    get_base_service_charge .midRange = 15 ∧ get_service_multiplier .midRange = 3 / 2 ∧
    get_base_service_charge .vip = 25 ∧ get_service_multiplier .vip = 5 / 2 ∧
    get_priority_level .vip = 1 ∧ get_priority_level .midRange = 2 ∧
    get_priority_level .economy = 3 ∧
    (ecoRoom101.room_class = .economy →
      (add_task sOneRoom "101" "Housekeeping" 30 "d" 7).map
          (fun p => (p.1.service_charge, p.1.priority)) = some (10, 3)) ∧
    (ecoRoom101.room_class = .midRange →
      (add_task sOneRoom "101" "Housekeeping" 30 "d" 7).map
          (fun p => (p.1.service_charge, p.1.priority)) = some (45 / 2, 2)) ∧
    (ecoRoom101.room_class = .vip →
      (add_task sOneRoom "101" "Housekeeping" 30 "d" 7).map
          (fun p => (p.1.service_charge, p.1.priority)) = some (125 / 2, 1))) :=
  ⟨rfl, add_task_charge_and_rank sOneRoom "101" "Housekeeping" "d" 30 7 ecoRoom101 rfl⟩

/-- **C5 counterexample.**  The claim says admission fails with an
`InvalidDuration` error whenever the estimated duration is ≤ 0 and that
the pending collection is then unchanged.  But `HotelScheduler.add_task`
performs no duration check at all: on the initial state, admitting room
`"101"` with estimated duration `0 ≤ 0` succeeds and grows the pending
collection from 0 to 1 tasks. -/
theorem add_task_zero_duration_succeeds :
    ((0 : Int) ≤ 0) ∧
    (add_task initState "101" "Housekeeping" 0 "cx" 0).isSome = true ∧
    (add_task initState "101" "Housekeeping" 0 "cx" 0).map (fun p => p.2.tasks.length)
      = some 1 ∧
    initState.tasks.length = 0 :=
  ⟨le_refl _, by decide, by decide, rfl⟩

/-- **C5 (amended).**  `HotelScheduler.add_task` performs no duration
validation: a call on an existing resource succeeds for every estimated
duration, including every duration ≤ 0, creating a pending task with
exactly that duration and appending it to the pending collection. -/
theorem add_task_no_duration_check (s : Scheduler) (r ty d : String) (now : Nat)
    (room : Room) (h : get_room s r = some room) (et : Int) (_hle : et ≤ 0) :
    (add_task s r ty et d now).isSome = true ∧
    (add_task s r ty et d now).map (fun p => p.2.tasks) = some (s.tasks ++ [
      { id := s.task_counter, room_number := r, room_class := get_room_class room.room_class
        task_type := ty, priority := get_priority_level room.room_class, estimated_time := et
        description := d, timestamp := now
        service_charge := calculate_service_charge room.room_class
          (get_base_service_charge room.room_class) }]) ∧
    (add_task s r ty et d now).map (fun p => p.1.estimated_time) = some et ∧
    (add_task s r ty et d now).map (fun p => p.1.status) = some "Pending" := by
  unfold add_task
  rw [h]
  exact ⟨rfl, rfl, rfl, rfl⟩

/-- Witness for C5 (amended): duration −3 on the one-room catalog. -/
theorem add_task_no_duration_check_witness :
    get_room sOneRoom "101" = some ecoRoom101 ∧ ((-3 : Int) ≤ 0) ∧
    ((add_task sOneRoom "101" "Housekeeping" (-3) "d" 7).isSome = true ∧
     (add_task sOneRoom "101" "Housekeeping" (-3) "d" 7).map (fun p => p.2.tasks)
       = some (sOneRoom.tasks ++ [
         { id := sOneRoom.task_counter, room_number := "101"
           room_class := get_room_class ecoRoom101.room_class
           task_type := "Housekeeping", priority := get_priority_level ecoRoom101.room_class
           estimated_time := -3, description := "d", timestamp := 7
           service_charge := calculate_service_charge ecoRoom101.room_class
             (get_base_service_charge ecoRoom101.room_class) }]) ∧
     (add_task sOneRoom "101" "Housekeeping" (-3) "d" 7).map (fun p => p.1.estimated_time)
       = some (-3) ∧
     (add_task sOneRoom "101" "Housekeeping" (-3) "d" 7).map (fun p => p.1.status)
       = some "Pending") :=
  ⟨rfl, by norm_num,
    add_task_no_duration_check sOneRoom "101" "Housekeeping" "d" 7 ecoRoom101 rfl (-3)
      (by norm_num)⟩

/-- **C6.**  Admission with a resource identifier that matches no room
raises (`none` in the embedding) before any mutation, so the caller's
scheduler — pending collection, completed collection, task-ID counter and
every room's history — is exactly as before the call: the post-call state
`add_task_run` equals the pre-call state. -/
theorem add_task_unknown_resource (s : Scheduler) (r ty d : String) (et : Int) (now : Nat)
    (h : get_room s r = none) :
    add_task s r ty et d now = none ∧
    add_task_run s r ty et d now = s ∧
    pendingCount (add_task_run s r ty et d now) = pendingCount s ∧
    (add_task_run s r ty et d now).completed_tasks = s.completed_tasks ∧
    (add_task_run s r ty et d now).task_counter = s.task_counter ∧
    (add_task_run s r ty et d now).rooms = s.rooms := by
  have hnone : add_task s r ty et d now = none := by
    unfold add_task
    rw [h]
  have hrun : add_task_run s r ty et d now = s := by
    unfold add_task_run
    rw [hnone]
  exact ⟨hnone, hrun, by rw [hrun], by rw [hrun], by rw [hrun], by rw [hrun]⟩

/-- **C7 counterexample.**  The claim asserts that the total count
pending + completed is conserved by every admit/complete sequence and
that only `clearAll` changes the total.  But a single successful
admission — not a `clearAll` — raises the total from 0 to 1 on the
initial state. -/
theorem admit_changes_total_count :
    totalCount initState = 0 ∧
    (add_task initState "101" "Housekeeping" 30 "sample" 0).map (fun p => totalCount p.2)
      = some 1 :=
  ⟨rfl, by decide⟩

/-- **C7 (amended).**  Each completion step of the dispatch loop moves
exactly one task from pending to completed: the pending count decreases
by 1, the completed count increases by 1, and the total pending +
completed is conserved by the completion step.  A successful admission,
by contrast, increases the total by exactly one (so it is not true that
only `clearAll` changes the total).  The `hids` hypothesis — task IDs in
the pending list are pairwise distinct — is the ID-uniqueness invariant
the scheduler maintains by construction. -/
theorem complete_step_counts (s : Scheduler) (flag : Nat → Bool) (staff : String)
    (t : Task) (s' : Scheduler)
    (hids : (s.tasks.map Task.id).Nodup)
    (hstep : runSimStep flag staff s = .completed t s') :
    pendingCount s' + 1 = pendingCount s ∧
    completedCount s' = completedCount s + 1 ∧
    totalCount s' = totalCount s ∧
    (∀ (r ty d : String) (et : Int) (now : Nat) t2 s2,
      add_task s r ty et d now = some (t2, s2) → totalCount s2 = totalCount s + 1) := by
  have hadmit : ∀ (r ty d : String) (et : Int) (now : Nat) t2 s2,
      add_task s r ty et d now = some (t2, s2) → totalCount s2 = totalCount s + 1 := by
    intro r ty d et now t2 s2 hadd
    unfold add_task at hadd
    cases hroom : get_room s r with
    | none => rw [hroom] at hadd; exact absurd hadd (by simp)
    | some room =>
      rw [hroom] at hadd
      simp only [Option.some.injEq, Prod.mk.injEq] at hadd
      obtain ⟨-, hs2⟩ := hadd
      rw [← hs2]
      unfold totalCount pendingCount completedCount pendingTasks
      simp [List.filter_append]
      omega
  unfold runSimStep at hstep
  split at hstep
  · exact SimOutcome.noConfusion hstep
  next t0 rest0 hsch =>
    split at hstep
    case isFalse hall => exact SimOutcome.noConfusion hstep
    case isTrue hall =>
      injection hstep with hteq hseq
      have ht0mem : t0 ∈ pendingTasks s :=
        mem_get_scheduled_tasks (by rw [hsch]; exact List.mem_cons_self ..)
      obtain ⟨ht0tasks, ht0st⟩ := mem_pendingTasks ht0mem
      obtain ⟨L₁, L₂, hLL⟩ := List.append_of_mem ht0tasks
      obtain ⟨hL1, hL2⟩ := ids_nodup_split (hLL ▸ hids)
      have hstep1 : (s.tasks.map fun x => if x = t0 then assignStaff t0 staff else x)
          = L₁ ++ assignStaff t0 staff :: L₂ := by
        rw [hLL]
        exact map_replace_append (fun x hx hxa => hL1 x hx (congrArg Task.id hxa))
          (fun x hx hxa => hL2 x hx (congrArg Task.id hxa))
      have hstep2 : ((L₁ ++ assignStaff t0 staff :: L₂).map
            fun x => if x = assignStaff t0 staff then completeTask (assignStaff t0 staff) else x)
          = L₁ ++ completeTask (assignStaff t0 staff) :: L₂ :=
        map_replace_append (fun x hx hxa => hL1 x hx (by rw [hxa]; rfl))
          (fun x hx hxa => hL2 x hx (by rw [hxa]; rfl))
      have herase : (L₁ ++ completeTask (assignStaff t0 staff) :: L₂).erase
            (completeTask (assignStaff t0 staff)) = L₁ ++ L₂ := by
        rw [List.erase_append_right _
            (fun hmem => hL1 (completeTask (assignStaff t0 staff)) hmem rfl),
          List.erase_cons_head]
      have hs'tasks : s'.tasks = L₁ ++ L₂ := by
        rw [← hseq]
        show ((s.tasks.map fun x => if x = t0 then assignStaff t0 staff else x).map
            fun x => if x = assignStaff t0 staff then completeTask (assignStaff t0 staff) else x).erase
            (completeTask (assignStaff t0 staff)) = L₁ ++ L₂
        rw [hstep1, hstep2, herase]
      have hs'completed : s'.completed_tasks
          = s.completed_tasks ++ [completeTask (assignStaff t0 staff)] := by
        rw [← hseq]
      have ht0p : (t0.status == "Pending") = true := by rw [ht0st]; rfl
      have hpend : pendingCount s' + 1 = pendingCount s := by
        unfold pendingCount pendingTasks
        rw [hs'tasks, hLL]
        simp [List.filter_append, List.filter_cons, ht0p]
        omega
      have hcomp : completedCount s' = completedCount s + 1 := by
        unfold completedCount
        rw [hs'completed, List.length_append]
        rfl
      exact ⟨hpend, hcomp, by unfold totalCount; omega, hadmit⟩

/-- The concrete one-task completion run used by the C7 witness. -/
theorem runSimStep_sSim_completes :
    runSimStep (fun _ => true) "w" sSim = .completed taskBDone sSimDone := by
  have hsch : get_scheduled_tasks sSim = [taskB] := by
    rw [get_scheduled_tasks_priority rfl, priority_schedule,
      show pendingTasks sSim = [taskB] from rfl, List.mergeSort_singleton]
  unfold runSimStep
  rw [hsch]
  decide

/-- Witness for C7 (amended): completing the single pending 5-minute task
of `sSim`. -/
theorem complete_step_counts_witness :
    (sSim.tasks.map Task.id).Nodup ∧
    runSimStep (fun _ => true) "w" sSim = .completed taskBDone sSimDone ∧
    (pendingCount sSimDone + 1 = pendingCount sSim ∧
     completedCount sSimDone = completedCount sSim + 1 ∧
     totalCount sSimDone = totalCount sSim ∧
     (∀ (r ty d : String) (et : Int) (now : Nat) t2 s2,
       add_task sSim r ty et d now = some (t2, s2) → totalCount s2 = totalCount sSim + 1)) :=
  ⟨by decide, runSimStep_sSim_completes,
    complete_step_counts sSim (fun _ => true) "w" taskBDone sSimDone (by decide)
      runSimStep_sSim_completes⟩

/-- Witness for C6: `"202"` is not in the one-room catalog. -/
theorem add_task_unknown_resource_witness :
    get_room sOneRoom "202" = none ∧
    (add_task sOneRoom "202" "Housekeeping" 5 "d" 0 = none ∧
     add_task_run sOneRoom "202" "Housekeeping" 5 "d" 0 = sOneRoom ∧
     pendingCount (add_task_run sOneRoom "202" "Housekeeping" 5 "d" 0) = pendingCount sOneRoom ∧
     (add_task_run sOneRoom "202" "Housekeeping" 5 "d" 0).completed_tasks
       = sOneRoom.completed_tasks ∧
     (add_task_run sOneRoom "202" "Housekeeping" 5 "d" 0).task_counter = sOneRoom.task_counter ∧
     (add_task_run sOneRoom "202" "Housekeeping" 5 "d" 0).rooms = sOneRoom.rooms) :=
  ⟨rfl, add_task_unknown_resource sOneRoom "202" "Housekeeping" "d" 5 0 rfl⟩

/-- **C8.**  `clear_all_tasks` empties both the pending and the completed
collection and touches nothing else: the task-ID counter, the room
catalog (including every room's history), the selected algorithm and the
time quantum are unchanged.  Because the counter is not reset, under the
scheduler's ID invariant (`hinv`: every stored task's ID is below the
counter) any task admitted after the clear receives an ID strictly
greater than every ID assigned before the clear — IDs are never reused. -/
theorem clear_all_spec (s : Scheduler)
    (hinv : (∀ u ∈ s.tasks, u.id < s.task_counter) ∧
            (∀ u ∈ s.completed_tasks, u.id < s.task_counter)) :
    (clear_all_tasks s).tasks = [] ∧
    (clear_all_tasks s).completed_tasks = [] ∧
    (clear_all_tasks s).task_counter = s.task_counter ∧
    (clear_all_tasks s).rooms = s.rooms ∧
    (clear_all_tasks s).current_algorithm = s.current_algorithm ∧
    (clear_all_tasks s).time_quantum = s.time_quantum ∧
    (∀ (r ty d : String) (et : Int) (now : Nat) t s',
      add_task (clear_all_tasks s) r ty et d now = some (t, s') →
      t.id = s.task_counter ∧
      (∀ u ∈ s.tasks, u.id < t.id) ∧ (∀ u ∈ s.completed_tasks, u.id < t.id)) := by
  refine ⟨rfl, rfl, rfl, rfl, rfl, rfl, ?_⟩
  intro r ty d et now t s' hadd
  have hid : t.id = s.task_counter := by
    unfold add_task at hadd
    cases hroom : get_room (clear_all_tasks s) r with
    | none => rw [hroom] at hadd; exact absurd hadd (by simp)
    | some room =>
      rw [hroom] at hadd
      simp only [Option.some.injEq, Prod.mk.injEq] at hadd
      obtain ⟨ht, -⟩ := hadd
      rw [← ht]
      rfl
  exact ⟨hid, fun u hu => by rw [hid]; exact hinv.1 u hu,
    fun u hu => by rw [hid]; exact hinv.2 u hu⟩

/-- Witness for C8: clearing `sClear` (one pending task with ID 1, one
completed with ID 2, counter 3) and then admitting room `"101"` yields a
task with the fresh ID 3. -/
theorem clear_all_spec_witness :
    ((∀ u ∈ sClear.tasks, u.id < sClear.task_counter) ∧
     (∀ u ∈ sClear.completed_tasks, u.id < sClear.task_counter)) ∧
    add_task (clear_all_tasks sClear) "101" "x" 5 "d" 9 = some (taskClearDone, sClearAfter) ∧
    ((clear_all_tasks sClear).tasks = [] ∧
     (clear_all_tasks sClear).completed_tasks = [] ∧
     (clear_all_tasks sClear).task_counter = sClear.task_counter ∧
     (clear_all_tasks sClear).rooms = sClear.rooms ∧
     (clear_all_tasks sClear).current_algorithm = sClear.current_algorithm ∧
     (clear_all_tasks sClear).time_quantum = sClear.time_quantum ∧
     (∀ (r ty d : String) (et : Int) (now : Nat) t s',
       add_task (clear_all_tasks sClear) r ty et d now = some (t, s') →
       t.id = sClear.task_counter ∧
       (∀ u ∈ sClear.tasks, u.id < t.id) ∧ (∀ u ∈ sClear.completed_tasks, u.id < t.id))) :=
  ⟨by decide, rfl, clear_all_spec sClear (by decide)⟩

/-- **C9.**  If the cancellation flag is observed `false` at one of the
progress increments of the head task, the loop body returns (`cancelled`
outcome, modelling the `return` that exits `run_simulation`): the head
task keeps status `"Pending"` (only its staff assignment was mutated),
every task's status is exactly as before, the task is still in the
pending collection, and nothing was appended to the completed
collection. -/
theorem cancelled_run_keeps_pending (s : Scheduler) (flag : Nat → Bool) (staff : String)
    (t : Task) (rest : List Task)
    (hsch : get_scheduled_tasks s = t :: rest)
    (hcancel : ∃ i, i < t.estimated_time.toNat ∧ flag i = false) :
    runSimStep flag staff s
      = .cancelled { s with tasks := s.tasks.map fun x => if x = t then assignStaff t staff else x } ∧
    t.status = "Pending" ∧
    (assignStaff t staff).status = "Pending" ∧
    ({ s with tasks := s.tasks.map fun x => if x = t then assignStaff t staff else x }).completed_tasks
      = s.completed_tasks ∧
    (s.tasks.map fun x => if x = t then assignStaff t staff else x).map Task.status
      = s.tasks.map Task.status ∧
    assignStaff t staff ∈ (s.tasks.map fun x => if x = t then assignStaff t staff else x) := by
  have hmem := mem_pendingTasks
    (mem_get_scheduled_tasks (show t ∈ get_scheduled_tasks s by
      rw [hsch]; exact List.mem_cons_self ..))
  have hall : (List.range t.estimated_time.toNat).all flag = false := by
    rw [List.all_eq_false]
    obtain ⟨i, hi, hfi⟩ := hcancel
    exact ⟨i, List.mem_range.mpr hi, by simp [hfi]⟩
  refine ⟨?_, hmem.2, hmem.2, rfl, ?_, ?_⟩
  · unfold runSimStep
    split
    next heq => rw [hsch] at heq; simp at heq
    next t0 rest0 heq =>
      rw [hsch] at heq
      injection heq with h1 h2
      subst h1
      rw [hall]
      rfl
  · rw [List.map_map]
    apply List.map_congr_left
    intro x hx
    by_cases hxt : x = t
    · subst hxt
      simp only [Function.comp_apply, if_pos rfl]
      rfl
    · simp only [Function.comp_apply, if_neg hxt]
  · exact List.mem_map.mpr ⟨t, hmem.1, by rw [if_pos rfl]⟩

/-- The pending head of the one-task example state `sSim`, used by the C9
witness. -/
theorem get_scheduled_tasks_sSim : get_scheduled_tasks sSim = [taskB] := by
  rw [get_scheduled_tasks_priority rfl, priority_schedule,
    show pendingTasks sSim = [taskB] from rfl, List.mergeSort_singleton]

/-- Witness for C9: cancelling at progress increment 2 of the 5-minute
task of `sSim`. -/
theorem cancelled_run_keeps_pending_witness :
    get_scheduled_tasks sSim = taskB :: [] ∧
    (∃ i, i < taskB.estimated_time.toNat ∧ flagOff2 i = false) ∧
    (runSimStep flagOff2 "w" sSim
        = .cancelled { sSim with
            tasks := sSim.tasks.map fun x => if x = taskB then assignStaff taskB "w" else x } ∧
     taskB.status = "Pending" ∧
     (assignStaff taskB "w").status = "Pending" ∧
     ({ sSim with
         tasks := sSim.tasks.map fun x =>
           if x = taskB then assignStaff taskB "w" else x }).completed_tasks
       = sSim.completed_tasks ∧
     (sSim.tasks.map fun x => if x = taskB then assignStaff taskB "w" else x).map Task.status
       = sSim.tasks.map Task.status ∧
     assignStaff taskB "w" ∈ (sSim.tasks.map fun x =>
       if x = taskB then assignStaff taskB "w" else x)) :=
  ⟨get_scheduled_tasks_sSim, ⟨2, by decide, by decide⟩,
    cancelled_run_keeps_pending sSim flagOff2 "w" taskB [] get_scheduled_tasks_sSim
      ⟨2, by decide, by decide⟩⟩

/-- **C10.**  `get_room` removes the marker `"Room "` from its argument
before the dict lookup, so for every identifier `r` present in the
catalog, looking up (and hence admitting with) the string `"Room " ++ r`
succeeds and resolves to exactly the same room as `r` itself — the
catalog keys are digit strings, so the removal leaves them untouched. -/
theorem room_marker_lookup (r : String)
    (h : (initState.rooms.lookup r).isSome = true) :
    get_room initState ("Room " ++ r) = get_room initState r ∧
    get_room initState r = initState.rooms.lookup r ∧
    (get_room initState ("Room " ++ r)).isSome = true ∧
    (∀ (ty d : String) (et : Int) (now : Nat),
      (add_task initState ("Room " ++ r) ty et d now).isSome = true) := by
  have h1 := get_room_room_append initState r
  have h2 := get_room_initState_key h
  have h3 : (get_room initState ("Room " ++ r)).isSome = true := by rw [h1, h2]; exact h
  refine ⟨h1, h2, h3, ?_⟩
  intro ty d et now
  obtain ⟨room, hroom⟩ := Option.isSome_iff_exists.mp h3
  unfold add_task
  rw [hroom]
  rfl

/-- Witness for C10: `"101"` is in the catalog, and `"Room 101"` resolves
to the same room. -/
theorem room_marker_lookup_witness :
    (initState.rooms.lookup "101").isSome = true ∧
    (get_room initState ("Room " ++ "101") = get_room initState "101" ∧
     get_room initState "101" = initState.rooms.lookup "101" ∧
     (get_room initState ("Room " ++ "101")).isSome = true ∧
     (∀ (ty d : String) (et : Int) (now : Nat),
       (add_task initState ("Room " ++ "101") ty et d now).isSome = true)) :=
  ⟨by decide, room_marker_lookup "101" (by decide)⟩

end HotelSys
